/-
Verification of the react-native-ios-activitykit bridge.

The development shallowly embeds the two layers of the library:

* the native Swift module `ExpoLiveActivitiesModule` (file
  `ios/ExpoLiveActivities.podspec`, module source): the process-wide
  registry `activeActivities : [String: Any]`, the per-kind attribute and
  content parsers, the kind dispatch in `createActivity`,
  `updateExistingActivity` and `endExistingActivity`, and
  `parseDismissalPolicy`;
* the TypeScript facade (file `src/index.ts`): `isSupported`,
  `startActivity`, `updateActivity`, `endActivity`, `getAllActivities`,
  `endAllActivities`.

Modelling choices (each noted again at the relevant definition):

* Bridge values (`Any` in Swift, `any` in TypeScript) are modelled by
  `JValue`: a string, an integer (all numeric values are modelled as `Int`:
  no claim depends on fractional parts), or an opaque value of any other
  type, which fails every cast.  Dictionaries are association lists up to
  `alookup`.
* The host capability `Activity<T>.request` / `.update` / `.end` is
  external to the repository; requests are modelled as always accepted, and
  the handle stored in the registry carries the attributes and the
  host-side content snapshot.  `Task { ... }` blocks only talk to the host,
  so they have no effect on the modelled registry.
* iOS availability checks become two booleans in `Env` (`ios161`,
  `ios162`), and the facade platform/module probes two more.
-/
import Mathlib

namespace ActivityKitModel

/-- Decidable equality for `Except` results, so that concrete outcomes can
be settled by `decide`. -/
instance instDecEqExcept {ε α : Type} [DecidableEq ε] [DecidableEq α] :
    DecidableEq (Except ε α)
  | .ok x, .ok y =>
      if h : x = y then .isTrue (by rw [h])
      else .isFalse (fun hc => h (by injection hc))
  | .ok _, .error _ => .isFalse (fun hc => by injection hc)
  | .error _, .ok _ => .isFalse (fun hc => by injection hc)
  | .error e, .error f =>
      if h : e = f then .isTrue (by rw [h])
      else .isFalse (fun hc => h (by injection hc))

/-- Swift `String.lowercased()`, modelled character-wise.  (the Lean builtin
`String.toLower` recurses on byte positions, which the kernel cannot
reduce; mapping `Char.toLower` over the character list is extensionally
the same operation.) -/
def lowercased (s : String) : String :=
  String.mk (s.data.map Char.toLower)

/-- A value crossing the JS/native bridge (`Any` in Swift).  `vother`
stands for a value of any type that casts neither to `String` nor to a
number, so every `as?` cast on it fails. -/
inductive JValue where
  | vstr (s : String)
  | vint (n : Int)
  | vother
  deriving DecidableEq, Repr

/-- A `[String: Any]` dictionary, as an association list. -/
abbrev JDict := List (String × JValue)

/-- First-match lookup in an association list (Swift `dict[key]`). -/
def alookup {α : Type} : List (String × α) → String → Option α
  | [], _ => none
  | (k, v) :: rest, key => if k = key then some v else alookup rest key

/-- Remove every entry with the given key (Swift
`removeValue(forKey:)`; dictionaries never hold a key twice, so on states
built by the module this removes at most one entry). -/
def aremove {α : Type} : List (String × α) → String → List (String × α)
  | [], _ => []
  | (k, v) :: rest, key =>
      if k = key then aremove rest key else (k, v) :: aremove rest key

/-- Set the value for a key (Swift `dict[key] = v`), modelled up to
`alookup` as cons-after-remove. -/
def ainsert {α : Type} (l : List (String × α)) (key : String) (v : α) :
    List (String × α) :=
  (key, v) :: aremove l key

/-- Swift `dict["k"] as? String`. -/
def getString (d : JDict) (k : String) : Option String :=
  match alookup d k with
  | some (JValue.vstr s) => some s
  | _ => none

/-- Swift `dict["k"] as? Int`. -/
def getInt (d : JDict) (k : String) : Option Int :=
  match alookup d k with
  | some (JValue.vint n) => some n
  | _ => none

/-- Swift `dict["k"] as? Double`; numeric values are modelled as `Int`. -/
def getDouble (d : JDict) (k : String) : Option Int :=
  getInt d k

/-- `CounterActivityAttributes` (title required, color optional). -/
structure CounterActivityAttributes where
  title : String
  color : Option String
  deriving DecidableEq, Repr

/-- `CounterActivityAttributes.ContentState`. -/
structure CounterContentState where
  value : Int
  status : Option String
  deriving DecidableEq, Repr

/-- `StatusActivityAttributes`. -/
structure StatusActivityAttributes where
  identifier : String
  title : String
  deriving DecidableEq, Repr

/-- `StatusActivityAttributes.ContentState`. -/
structure StatusContentState where
  status : String
  progress : Option Int
  details : Option String
  timestamp : Option Int
  deriving DecidableEq, Repr

/-- `ProgressActivityAttributes`. -/
structure ProgressActivityAttributes where
  title : String
  total : Int
  unit : Option String
  deriving DecidableEq, Repr

/-- `ProgressActivityAttributes.ContentState`. -/
structure ProgressContentState where
  current : Int
  description : Option String
  percentage : Option Int
  deriving DecidableEq, Repr

/-- The Swift `LiveActivityError` enum. -/
inductive LiveActivityError where
  | unsupported
  | unknownType (s : String)
  | invalidAttributes (s : String)
  | invalidContent (s : String)
  | notFound (s : String)
  | startFailed (s : String)
  | updateFailed (s : String)
  | endFailed (s : String)
  deriving DecidableEq, Repr

/-- `LiveActivityError.errorDescription` (the `LocalizedError`
extension). -/
def LiveActivityError.errorDescription : LiveActivityError → String
  | .unsupported => "Live Activities require iOS 16.1 or later"
  | .unknownType t => "Unknown activity type: " ++ t
  | .invalidAttributes m => "Invalid attributes: " ++ m
  | .invalidContent m => "Invalid content: " ++ m
  | .notFound i => "Activity not found: " ++ i
  | .startFailed m => "Failed to start activity: " ++ m
  | .updateFailed m => "Failed to update activity: " ++ m
  | .endFailed m => "Failed to end activity: " ++ m

/-- `parseCounterAttributes`. -/
def parseCounterAttributes (dict : JDict) :
    Except LiveActivityError CounterActivityAttributes :=
  match getString dict "title" with
  | none => .error (.invalidAttributes "Missing \x27title\x27 for CounterActivity")
  | some title => .ok ⟨title, getString dict "color"⟩

/-- `parseCounterContent`. -/
def parseCounterContent (dict : JDict) :
    Except LiveActivityError CounterContentState :=
  match getInt dict "value" with
  | none => .error (.invalidContent "Missing \x27value\x27 for CounterActivity")
  | some value => .ok ⟨value, getString dict "status"⟩

/-- `parseStatusAttributes`. -/
def parseStatusAttributes (dict : JDict) :
    Except LiveActivityError StatusActivityAttributes :=
  match getString dict "identifier", getString dict "title" with
  | some identifier, some title => .ok ⟨identifier, title⟩
  | _, _ =>
      .error (.invalidAttributes
        "Missing \x27identifier\x27 or \x27title\x27 for StatusActivity")

/-- `parseStatusContent`. -/
def parseStatusContent (dict : JDict) :
    Except LiveActivityError StatusContentState :=
  match getString dict "status" with
  | none => .error (.invalidContent "Missing \x27status\x27 for StatusActivity")
  | some status =>
      .ok ⟨status, getInt dict "progress", getString dict "details",
        getDouble dict "timestamp"⟩

/-- `parseProgressAttributes`. -/
def parseProgressAttributes (dict : JDict) :
    Except LiveActivityError ProgressActivityAttributes :=
  match getString dict "title", getInt dict "total" with
  | some title, some total => .ok ⟨title, total, getString dict "unit"⟩
  | _, _ =>
      .error (.invalidAttributes
        "Missing \x27title\x27 or \x27total\x27 for ProgressActivity")

/-- `parseProgressContent`. -/
def parseProgressContent (dict : JDict) :
    Except LiveActivityError ProgressContentState :=
  match getInt dict "current" with
  | none => .error (.invalidContent "Missing \x27current\x27 for ProgressActivity")
  | some current =>
      .ok ⟨current, getString dict "description", getInt dict "percentage"⟩

/-- A value stored in `activeActivities` (typed `Any` in Swift).  The
module only ever stores `Activity<CounterActivityAttributes>`,
`Activity<StatusActivityAttributes>` or
`Activity<ProgressActivityAttributes>` handles; `other` stands for an
`Any` of any unrelated type, so that the ordered `as?`-cast trial in the
update/end dispatch (and its unknown-type failure branch) is represented
faithfully.  A handle carries the attributes fixed at request time and the
current host-side content snapshot. -/
inductive StoredValue where
  | counter (a : CounterActivityAttributes) (c : CounterContentState)
  | status (a : StatusActivityAttributes) (c : StatusContentState)
  | progress (a : ProgressActivityAttributes) (c : ProgressContentState)
  | other
  deriving DecidableEq, Repr

/-- The native module state: `activeActivities : [String: Any]`. -/
abbrev ModuleState := List (String × StoredValue)

/-- Host availability and facade environment: `#available(iOS 16.1, *)`,
`#available(iOS 16.2, *)`, `Platform.OS === "ios"`, and whether
`requireNativeModule` produced a module. -/
structure Env where
  platformIsIOS : Bool
  moduleAvailable : Bool
  ios161 : Bool
  ios162 : Bool
  deriving DecidableEq, Repr

/-- `ActivityUIDismissalPolicy` as used by the module: `.immediate`,
`.after(.now + 3)` (the offset in seconds is kept as data), `.default`. -/
inductive ActivityUIDismissalPolicy where
  | immediate
  | after (secondsFromNow : Int)
  | dflt
  deriving DecidableEq, Repr

/-- `parseDismissalPolicy`: switch on the lowercased string; `"after"`
requires iOS 16.2 and otherwise falls back to `.default` (modelled as
`.dflt`). -/
def parseDismissalPolicy (env : Env) (policy : String) :
    ActivityUIDismissalPolicy :=
  match lowercased policy with
  | "immediate" => .immediate
  | "after" => if env.ios162 then .after 3 else .dflt
  | _ => .dflt

/-- `createActivity`: dispatch on the kind name; each branch parses
attributes, then content, then requests the host activity (modelled as
always accepted) and stores the handle under the fresh id.  Parse failures
leave the registry untouched. -/
def createActivity (activityId : String) (activityType : String)
    (attributes contentState : JDict) (st : ModuleState) :
    Except LiveActivityError Unit × ModuleState :=
  match activityType with
  | "CounterActivity" =>
      match parseCounterAttributes attributes with
      | .error e => (.error e, st)
      | .ok a =>
          match parseCounterContent contentState with
          | .error e => (.error e, st)
          | .ok c => (.ok (), ainsert st activityId (.counter a c))
  | "StatusActivity" =>
      match parseStatusAttributes attributes with
      | .error e => (.error e, st)
      | .ok a =>
          match parseStatusContent contentState with
          | .error e => (.error e, st)
          | .ok c => (.ok (), ainsert st activityId (.status a c))
  | "ProgressActivity" =>
      match parseProgressAttributes attributes with
      | .error e => (.error e, st)
      | .ok a =>
          match parseProgressContent contentState with
          | .error e => (.error e, st)
          | .ok c => (.ok (), ainsert st activityId (.progress a c))
  | _ => (.error (.unknownType activityType), st)

/-- `updateExistingActivity`: look the handle up first (`NotFound` when
absent), then resolve the kind by ordered `as?` trial, parse the content
for that kind and replace the host-side snapshot.  The final `else` branch
throws `unknownType` for a stored value of no known activity type. -/
def updateExistingActivity (activityId : String) (contentState : JDict)
    (st : ModuleState) : Except LiveActivityError Unit × ModuleState :=
  match alookup st activityId with
  | none => (.error (.notFound activityId), st)
  | some (StoredValue.counter a _) =>
      match parseCounterContent contentState with
      | .error e => (.error e, st)
      | .ok c => (.ok (), ainsert st activityId (.counter a c))
  | some (StoredValue.status a _) =>
      match parseStatusContent contentState with
      | .error e => (.error e, st)
      | .ok c => (.ok (), ainsert st activityId (.status a c))
  | some (StoredValue.progress a _) =>
      match parseProgressContent contentState with
      | .error e => (.error e, st)
      | .ok c => (.ok (), ainsert st activityId (.progress a c))
  | some StoredValue.other =>
      (.error (.unknownType ("Unknown activity type for ID: " ++ activityId)),
        st)

/-- `endExistingActivity`: `NotFound` when the id is absent; otherwise the
host teardown is launched in a detached `Task` (no registry effect; an
unrecognized stored type is silently skipped by the trial chain there) and
the entry is removed immediately and unconditionally. -/
def endExistingActivity (activityId : String)
    (dismissalPolicy : ActivityUIDismissalPolicy) (st : ModuleState) :
    Except LiveActivityError Unit × ModuleState :=
  match alookup st activityId with
  | none => (.error (.notFound activityId), st)
  | some _ => (.ok (), aremove st activityId)

/-- The result of the native `startActivity` function. -/
structure ActivityInfo where
  activityId : String
  activityType : String
  startTime : Int
  deriving DecidableEq, Repr

/-- Native `Function("isSupported")`. -/
def nativeIsSupported (env : Env) : Bool :=
  env.ios161

/-- Native `AsyncFunction("startActivity")`: availability guard, fresh
UUID (passed in as `freshId`) and wall-clock time (passed in as `now`),
then `createActivity`; any error of the `do` block is rethrown as
`startFailed` with its localized description. -/
def nativeStartActivity (env : Env) (activityType : String)
    (attributes contentState : JDict) (freshId : String) (now : Int)
    (st : ModuleState) : Except LiveActivityError ActivityInfo × ModuleState :=
  if env.ios161 then
    match createActivity freshId activityType attributes contentState st with
    | (.ok _, st') => (.ok ⟨freshId, activityType, now⟩, st')
    | (.error e, st') => (.error (.startFailed e.errorDescription), st')
  else (.error .unsupported, st)

/-- Native `AsyncFunction("updateActivity")`: availability guard, then
`updateExistingActivity`; errors are rethrown as `updateFailed`. -/
def nativeUpdateActivity (env : Env) (activityId : String)
    (contentState : JDict) (st : ModuleState) :
    Except LiveActivityError Unit × ModuleState :=
  if env.ios161 then
    match updateExistingActivity activityId contentState st with
    | (.ok _, st') => (.ok (), st')
    | (.error e, st') => (.error (.updateFailed e.errorDescription), st')
  else (.error .unsupported, st)

/-- Native `AsyncFunction("endActivity")`: availability guard, policy
parse, then `endExistingActivity`; errors are rethrown as `endFailed`. -/
def nativeEndActivity (env : Env) (activityId : String)
    (dismissalPolicy : String) (st : ModuleState) :
    Except LiveActivityError Unit × ModuleState :=
  if env.ios161 then
    match endExistingActivity activityId (parseDismissalPolicy env dismissalPolicy) st with
    | (.ok _, st') => (.ok (), st')
    | (.error e, st') => (.error (.endFailed e.errorDescription), st')
  else (.error .unsupported, st)

/-- Native `AsyncFunction("getAllActivities")`: `[]` below iOS 16.1,
otherwise the key set of the registry. -/
def nativeGetAllActivities (env : Env) (st : ModuleState) : List String :=
  if env.ios161 then st.map Prod.fst else []

/-- A JavaScript value in a string-typed facade parameter position:
either an actual string or a value of any other runtime type (for which
`typeof x !== "string"`). -/
inductive JSStringArg where
  | ofString (s : String)
  | notAString
  deriving DecidableEq, Repr

/-- The facade test `!x || typeof x !== "string"` (the empty string is
falsy in JavaScript). -/
def validNonEmptyString : JSStringArg → Bool
  | .ofString s => !(s = "")
  | .notAString => false

/-- An error thrown by the TypeScript facade.  The facade wraps a bridge
rejection in a fresh `Error` whose message embeds the description of the
native error; `wrapped` keeps the native error itself so that statements
can name it structurally. -/
inductive FacadeError where
  | unsupportedDevice
  | invalidArgument (msg : String)
  | wrapped (e : LiveActivityError)
  deriving DecidableEq, Repr

/-- TS `isSupported()`: iOS platform, module loaded, and the native
probe. -/
def isSupported (env : Env) : Bool :=
  env.platformIsIOS && env.moduleAvailable && nativeIsSupported env

/-- TS `startActivity`: supportability gate, non-empty-string check on
`activityType`, `attributes || {}` / `contentState || {}` substitution
(`none` models a nullish argument), then the native call. -/
def tsStartActivity (env : Env) (activityType : JSStringArg)
    (attributes contentState : Option JDict) (freshId : String) (now : Int)
    (st : ModuleState) : Except FacadeError ActivityInfo × ModuleState :=
  if isSupported env then
    if validNonEmptyString activityType then
      match activityType with
      | .notAString =>
          (.error (.invalidArgument "activityType must be a non-empty string"),
            st)
      | .ofString ty =>
          match nativeStartActivity env ty (attributes.getD [])
              (contentState.getD []) freshId now st with
          | (.ok r, st') => (.ok r, st')
          | (.error e, st') => (.error (.wrapped e), st')
    else
      (.error (.invalidArgument "activityType must be a non-empty string"), st)
  else (.error .unsupportedDevice, st)

/-- TS `updateActivity`: supportability gate, non-empty-string check on
`activityId`, `contentState || {}` substitution, then the native call. -/
def tsUpdateActivity (env : Env) (activityId : JSStringArg)
    (contentState : Option JDict) (st : ModuleState) :
    Except FacadeError Unit × ModuleState :=
  if isSupported env then
    if validNonEmptyString activityId then
      match activityId with
      | .notAString =>
          (.error (.invalidArgument "activityId must be a non-empty string"),
            st)
      | .ofString id =>
          match nativeUpdateActivity env id (contentState.getD []) st with
          | (.ok _, st') => (.ok (), st')
          | (.error e, st') => (.error (.wrapped e), st')
    else
      (.error (.invalidArgument "activityId must be a non-empty string"), st)
  else (.error .unsupportedDevice, st)

/-- TS `endActivity`: supportability gate, non-empty-string check on
`activityId`, then the native call. -/
def tsEndActivity (env : Env) (activityId : JSStringArg)
    (dismissalPolicy : String) (st : ModuleState) :
    Except FacadeError Unit × ModuleState :=
  if isSupported env then
    if validNonEmptyString activityId then
      match activityId with
      | .notAString =>
          (.error (.invalidArgument "activityId must be a non-empty string"),
            st)
      | .ofString id =>
          match nativeEndActivity env id dismissalPolicy st with
          | (.ok _, st') => (.ok (), st')
          | (.error e, st') => (.error (.wrapped e), st')
    else
      (.error (.invalidArgument "activityId must be a non-empty string"), st)
  else (.error .unsupportedDevice, st)

/-- TS `getAllActivities`: `[]` when unsupported, otherwise the native
call (which never rejects in the model). -/
def tsGetAllActivities (env : Env) (st : ModuleState) : List String :=
  if isSupported env then nativeGetAllActivities env st else []

/-- The per-id loop of `endAllActivities` (`Promise.all` over
`endActivity` calls; in the single-threaded event loop each native
end runs atomically).  The first rejection is recorded and the remaining
ends still run; a rejection never undoes removals already performed. -/
def endAllLoop (env : Env) (dismissalPolicy : String) :
    List String → Option FacadeError × ModuleState →
    Option FacadeError × ModuleState
  | [], acc => acc
  | id :: rest, (err, st) =>
      match tsEndActivity env (.ofString id) dismissalPolicy st with
      | (.ok _, st') => endAllLoop env dismissalPolicy rest (err, st')
      | (.error e, st') =>
          endAllLoop env dismissalPolicy rest
            (match err with
             | none => some e
             | some e0 => some e0, st')

/-- TS `endAllActivities`: silent no-op when unsupported, otherwise fetch
all current ids and end each one; the aggregate rejects (with the first
per-id error, which the facade wraps into its own message) if any single
end does. -/
def tsEndAllActivities (env : Env) (dismissalPolicy : String)
    (st : ModuleState) : Option FacadeError × ModuleState :=
  if isSupported env then
    endAllLoop env dismissalPolicy (tsGetAllActivities env st) (none, st)
  else (none, st)

/-- Two stored handles have the same kind and the same attributes (used to
state that updates replace only the content snapshot). -/
def attrsAgree : StoredValue → StoredValue → Prop
  | .counter a _, .counter b _ => a = b
  | .status a _, .status b _ => a = b
  | .progress a _, .progress b _ => a = b
  | .other, .other => True
  | _, _ => False

/-- The content dictionary parses successfully against the kind of the
given stored handle (the "content contains the required fields of the kind"
hypothesis of the round-trip property). -/
def contentParsesFor : StoredValue → JDict → Prop
  | .counter _ _, c => ∃ x, parseCounterContent c = .ok x
  | .status _ _, c => ∃ x, parseStatusContent c = .ok x
  | .progress _ _, c => ∃ x, parseProgressContent c = .ok x
  | .other, _ => False

/-- Module states reachable through the native operations, starting from
the empty registry.  Fresh ids come from `UUID().uuidString`, hence are
non-empty and not yet in use. -/
inductive Reachable : ModuleState → Prop where
  | init : Reachable []
  | step_start (env : Env) (ty : String) (attrs content : JDict)
      (freshId : String) (now : Int) (st : ModuleState) (r : ActivityInfo)
      (st' : ModuleState) :
      Reachable st → freshId ≠ "" → alookup st freshId = none →
      nativeStartActivity env ty attrs content freshId now st = (.ok r, st') →
      Reachable st'
  | step_update (env : Env) (id : String) (content : JDict)
      (st st' : ModuleState) :
      Reachable st → nativeUpdateActivity env id content st = (.ok (), st') →
      Reachable st'
  | step_end (env : Env) (id : String) (policy : String)
      (st st' : ModuleState) :
      Reachable st → nativeEndActivity env id policy st = (.ok (), st') →
      Reachable st'

/-- A fully capable host (iOS platform, module loaded, iOS 16.2). -/
def envAll : Env := ⟨true, true, true, true⟩

/-- An iOS 16.1 host that is below iOS 16.2. -/
def envNo162 : Env := ⟨true, true, true, false⟩

/-- An unsupported host. -/
def envOff : Env := ⟨false, false, false, false⟩

section Lemmas

theorem alookup_aremove_ne {α : Type} (l : List (String × α)) (key j : String)
    (h : j ≠ key) : alookup (aremove l key) j = alookup l j := by
  induction l with
  | nil => rfl
  | cons p rest ih =>
      obtain ⟨k, v⟩ := p
      by_cases hk : k = key
      · have hkj : ¬(k = j) := fun hkj => h (hkj ▸ hk)
        simp only [aremove, if_pos hk, alookup, if_neg hkj, ih]
      · by_cases hj : k = j
        · simp only [aremove, if_neg hk, alookup, if_pos hj]
        · simp only [aremove, if_neg hk, alookup, if_neg hj, ih]

theorem alookup_aremove_self {α : Type} (l : List (String × α)) (key : String) :
    alookup (aremove l key) key = none := by
  induction l with
  | nil => rfl
  | cons p rest ih =>
      obtain ⟨k, v⟩ := p
      by_cases hk : k = key <;> simp [aremove, hk, alookup, ih]

theorem alookup_ainsert_self {α : Type} (l : List (String × α)) (key : String)
    (v : α) : alookup (ainsert l key v) key = some v := by
  simp [ainsert, alookup]

theorem alookup_ainsert_ne {α : Type} (l : List (String × α)) (key j : String)
    (v : α) (h : j ≠ key) :
    alookup (ainsert l key v) j = alookup l j := by
  have hkj : ¬(key = j) := fun hkj => h hkj.symm
  simp only [ainsert, alookup, if_neg hkj]
  exact alookup_aremove_ne l key j h

theorem mem_aremove_iff {α : Type} (l : List (String × α)) (key : String)
    (p : String × α) : p ∈ aremove l key ↔ p ∈ l ∧ p.1 ≠ key := by
  induction l with
  | nil => simp [aremove]
  | cons q rest ih =>
      obtain ⟨k, v⟩ := q
      by_cases hk : k = key
      · simp only [aremove, if_pos hk, ih, List.mem_cons]
        constructor
        · exact fun h => ⟨Or.inr h.1, h.2⟩
        · rintro ⟨h | h, hne⟩
          · exact absurd (h ▸ hk) hne
          · exact ⟨h, hne⟩
      · simp only [aremove, if_neg hk, List.mem_cons, ih]
        constructor
        · rintro (h | h)
          · exact ⟨Or.inl h, h ▸ hk⟩
          · exact ⟨Or.inr h.1, h.2⟩
        · rintro ⟨h | h, hne⟩
          · exact Or.inl h
          · exact Or.inr ⟨h, hne⟩

theorem mem_ainsert_iff {α : Type} (l : List (String × α)) (key : String)
    (v : α) (p : String × α) :
    p ∈ ainsert l key v ↔ p = (key, v) ∨ (p ∈ l ∧ p.1 ≠ key) := by
  simp [ainsert, mem_aremove_iff]

theorem alookup_eq_none_iff {α : Type} (l : List (String × α)) (key : String) :
    alookup l key = none ↔ ∀ p ∈ l, p.1 ≠ key := by
  induction l with
  | nil => simp [alookup]
  | cons q rest ih =>
      obtain ⟨k, v⟩ := q
      by_cases hk : k = key <;> simp [alookup, hk, ih]

theorem alookup_isSome_of_mem {α : Type} (l : List (String × α))
    (p : String × α) (h : p ∈ l) : alookup l p.1 ≠ none := by
  intro hnone
  exact (alookup_eq_none_iff l p.1).mp hnone p h rfl

theorem mem_keys_of_alookup {α : Type} (l : List (String × α)) (key : String)
    (v : α) (h : alookup l key = some v) : key ∈ l.map Prod.fst := by
  induction l with
  | nil => simp [alookup] at h
  | cons q rest ih =>
      obtain ⟨k, w⟩ := q
      by_cases hk : k = key
      · simp [hk]
      · simp only [alookup, if_neg hk] at h
        simp [ih h]

theorem alookup_eq_none_of_not_mem_keys {α : Type} (l : List (String × α))
    (key : String) (h : key ∉ l.map Prod.fst) : alookup l key = none := by
  rw [alookup_eq_none_iff]
  intro p hp hkey
  exact h (hkey ▸ List.mem_map_of_mem Prod.fst hp)

theorem not_mem_keys_of_alookup_eq_none {α : Type} (l : List (String × α))
    (key : String) (h : alookup l key = none) : key ∉ l.map Prod.fst := by
  intro hmem
  obtain ⟨p, hp, hpk⟩ := List.mem_map.mp hmem
  exact (alookup_eq_none_iff l key).mp h p hp hpk

theorem ios161_of_isSupported {env : Env} (h : isSupported env = true) :
    env.ios161 = true := by
  unfold isSupported nativeIsSupported at h
  cases hb : env.ios161
  · rw [hb] at h
    simp at h
  · rfl

theorem createActivity_ok {freshId ty : String} {attrs content : JDict}
    {st st' : ModuleState} {u : Unit}
    (h : createActivity freshId ty attrs content st = (.ok u, st')) :
    ∃ hd, hd ≠ StoredValue.other ∧ st' = ainsert st freshId hd := by
  unfold createActivity at h
  split at h
  · split at h
    · simp at h
    · split at h
      · simp at h
      · simp only [Prod.mk.injEq] at h
        exact ⟨_, by simp, h.2.symm⟩
  · split at h
    · simp at h
    · split at h
      · simp at h
      · simp only [Prod.mk.injEq] at h
        exact ⟨_, by simp, h.2.symm⟩
  · split at h
    · simp at h
    · split at h
      · simp at h
      · simp only [Prod.mk.injEq] at h
        exact ⟨_, by simp, h.2.symm⟩
  · simp at h

theorem nativeStartActivity_ok {env : Env} {ty : String}
    {attrs content : JDict} {freshId : String} {now : Int}
    {st st' : ModuleState} {r : ActivityInfo}
    (h : nativeStartActivity env ty attrs content freshId now st = (.ok r, st')) :
    env.ios161 = true ∧ r.activityId = freshId ∧
      ∃ hd, hd ≠ StoredValue.other ∧ st' = ainsert st freshId hd := by
  unfold nativeStartActivity at h
  split at h
  next h161 =>
    split at h
    next u st2 heq =>
      simp only [Prod.mk.injEq] at h
      obtain ⟨hrr, hss⟩ := h
      subst hss
      obtain ⟨hd, hdne, hst2⟩ := createActivity_ok heq
      have hr : r = ⟨freshId, ty, now⟩ := by
        injection hrr with h'
        exact h'.symm
      exact ⟨h161, by rw [hr], ⟨hd, hdne, hst2⟩⟩
    next e st2 heq => simp at h
  next => simp at h

theorem tsStartActivity_ok {env : Env} {ty : JSStringArg}
    {attrs content : Option JDict} {freshId : String} {now : Int}
    {st st' : ModuleState} {r : ActivityInfo}
    (h : tsStartActivity env ty attrs content freshId now st = (.ok r, st')) :
    isSupported env = true ∧ r.activityId = freshId ∧
      ∃ hd, hd ≠ StoredValue.other ∧ st' = ainsert st freshId hd := by
  unfold tsStartActivity at h
  split at h
  next hsup =>
    split at h
    next hv =>
      split at h
      · simp at h
      next ty' =>
        split at h
        next r2 st2 heq =>
          simp only [Prod.mk.injEq] at h
          obtain ⟨hrr, hss⟩ := h
          subst hss
          obtain ⟨_, hr2, hd, hdne, hst2⟩ := nativeStartActivity_ok heq
          have hr : r = r2 := by
            injection hrr with h'
            exact h'.symm
          exact ⟨hsup, by rw [hr, hr2], ⟨hd, hdne, hst2⟩⟩
        next e st2 heq => simp at h
    next => simp at h
  next => simp at h

theorem updateExistingActivity_notFound {id : String} {content : JDict}
    {st : ModuleState} (h : alookup st id = none) :
    updateExistingActivity id content st = (.error (.notFound id), st) := by
  unfold updateExistingActivity
  rw [h]

theorem nativeUpdateActivity_ok {env : Env} {id : String} {content : JDict}
    {st st' : ModuleState} {u : Unit}
    (h : nativeUpdateActivity env id content st = (.ok u, st')) :
    ∃ hd hd', alookup st id = some hd ∧ hd' ≠ StoredValue.other ∧
      attrsAgree hd hd' ∧ st' = ainsert st id hd' := by
  unfold nativeUpdateActivity at h
  split at h
  next h161 =>
    split at h
    next u2 st2 heq =>
      simp only [Prod.mk.injEq] at h
      obtain ⟨-, hss⟩ := h
      subst hss
      unfold updateExistingActivity at heq
      split at heq
      · simp at heq
      next a c0 hlk =>
        split at heq
        · simp at heq
        next cN hpc =>
          simp only [Prod.mk.injEq] at heq
          exact ⟨_, _, hlk, by simp, by simp [attrsAgree], heq.2.symm⟩
      next a c0 hlk =>
        split at heq
        · simp at heq
        next cN hpc =>
          simp only [Prod.mk.injEq] at heq
          exact ⟨_, _, hlk, by simp, by simp [attrsAgree], heq.2.symm⟩
      next a c0 hlk =>
        split at heq
        · simp at heq
        next cN hpc =>
          simp only [Prod.mk.injEq] at heq
          exact ⟨_, _, hlk, by simp, by simp [attrsAgree], heq.2.symm⟩
      · simp at heq
    next e st2 heq => simp at h
  next => simp at h

theorem nativeEndActivity_ok {env : Env} {id policy : String}
    {st st' : ModuleState} {u : Unit}
    (h : nativeEndActivity env id policy st = (.ok u, st')) :
    ∃ hd, alookup st id = some hd ∧ st' = aremove st id := by
  unfold nativeEndActivity at h
  split at h
  next h161 =>
    split at h
    next u2 st2 heq =>
      simp only [Prod.mk.injEq] at h
      obtain ⟨-, hss⟩ := h
      subst hss
      unfold endExistingActivity at heq
      split at heq
      · simp at heq
      next hd hlk =>
        simp only [Prod.mk.injEq] at heq
        exact ⟨hd, hlk, heq.2.symm⟩
    next e st2 heq => simp at h
  next => simp at h

theorem tsEndActivity_found {env : Env} {id : String} {policy : String}
    {st : ModuleState} {hd : StoredValue} (hsup : isSupported env = true)
    (hne : id ≠ "") (hlk : alookup st id = some hd) :
    tsEndActivity env (.ofString id) policy st = (.ok (), aremove st id) := by
  have h161 := ios161_of_isSupported hsup
  have hvv : validNonEmptyString (JSStringArg.ofString id) = true := by
    simp [validNonEmptyString, hne]
  have hnat : nativeEndActivity env id policy st = (.ok (), aremove st id) := by
    unfold nativeEndActivity endExistingActivity
    rw [hlk, h161]
    simp
  simp [tsEndActivity, hsup, hvv, hnat]

theorem tsEndActivity_absent {env : Env} {id : String} {policy : String}
    {st : ModuleState} (hsup : isSupported env = true) (hne : id ≠ "")
    (hlk : alookup st id = none) :
    tsEndActivity env (.ofString id) policy st =
      (.error (.wrapped (.endFailed
        ((LiveActivityError.notFound id).errorDescription))), st) := by
  have h161 := ios161_of_isSupported hsup
  have hvv : validNonEmptyString (JSStringArg.ofString id) = true := by
    simp [validNonEmptyString, hne]
  have hnat : nativeEndActivity env id policy st =
      (.error (.endFailed ((LiveActivityError.notFound id).errorDescription)),
        st) := by
    unfold nativeEndActivity endExistingActivity
    rw [hlk, h161]
    simp
  simp [tsEndActivity, hsup, hvv, hnat]

theorem mem_of_alookup_eq_some {α : Type} (l : List (String × α))
    (key : String) (v : α) (h : alookup l key = some v) : (key, v) ∈ l := by
  induction l with
  | nil => simp [alookup] at h
  | cons p rest ih =>
      obtain ⟨k, w⟩ := p
      by_cases hk : k = key
      · simp only [alookup, if_pos hk] at h
        injection h with hwv
        subst hk
        subst hwv
        exact List.mem_cons_self _ _
      · simp only [alookup, if_neg hk] at h
        exact List.mem_cons_of_mem _ (ih h)

theorem attrsAgree_rfl (hd : StoredValue) : attrsAgree hd hd := by
  cases hd <;> simp [attrsAgree]

theorem keys_ainsert_iff {α : Type} (l : List (String × α)) (key : String)
    (v : α) (hmem : key ∈ l.map Prod.fst) :
    ∀ j, j ∈ (ainsert l key v).map Prod.fst ↔ j ∈ l.map Prod.fst := by
  intro j
  constructor
  · intro hj
    obtain ⟨p, hp, hpj⟩ := List.mem_map.mp hj
    rcases (mem_ainsert_iff l key v p).mp hp with hpe | ⟨hpl, -⟩
    · rw [← hpj, hpe]
      exact hmem
    · exact hpj ▸ List.mem_map_of_mem Prod.fst hpl
  · intro hj
    by_cases hjk : j = key
    · subst hjk
      exact List.mem_map_of_mem Prod.fst
        ((mem_ainsert_iff l j v (j, v)).mpr (Or.inl rfl))
    · obtain ⟨p, hp, hpj⟩ := List.mem_map.mp hj
      exact hpj ▸ List.mem_map_of_mem Prod.fst
        ((mem_ainsert_iff l key v p).mpr (Or.inr ⟨hp, hpj.symm ▸ hjk⟩))

theorem reachable_no_other {st : ModuleState} (h : Reachable st) :
    ∀ p ∈ st, p.2 ≠ StoredValue.other := by
  induction h with
  | init => simp
  | step_start env ty attrs content freshId now st r st' _ hfresh hnone hok ih =>
      obtain ⟨-, -, hd, hdne, hst'⟩ := nativeStartActivity_ok hok
      intro p hp
      rw [hst'] at hp
      rcases (mem_ainsert_iff st freshId hd p).mp hp with hpe | ⟨hpl, -⟩
      · rw [hpe]
        exact hdne
      · exact ih p hpl
  | step_update env id content st st' _ hok ih =>
      obtain ⟨hd, hd', -, hdne, -, hst'⟩ := nativeUpdateActivity_ok hok
      intro p hp
      rw [hst'] at hp
      rcases (mem_ainsert_iff st id hd' p).mp hp with hpe | ⟨hpl, -⟩
      · rw [hpe]
        exact hdne
      · exact ih p hpl
  | step_end env id policy st st' _ hok ih =>
      obtain ⟨hd, -, hst'⟩ := nativeEndActivity_ok hok
      intro p hp
      rw [hst'] at hp
      exact ih p ((mem_aremove_iff st id p).mp hp).1

theorem endAllLoop_empties (env : Env) (policy : String)
    (hsup : isSupported env = true) :
    ∀ (ids : List String) (err : Option FacadeError) (st : ModuleState),
      (∀ id ∈ ids, id ≠ "") → (∀ p ∈ st, p.1 ∈ ids) →
      (endAllLoop env policy ids (err, st)).2 = [] := by
  intro ids
  induction ids with
  | nil =>
      intro err st _ hcov
      cases st with
      | nil => rfl
      | cons p rest => exact absurd (hcov p (List.mem_cons_self p rest)) (by simp)
  | cons id rest ih =>
      intro err st hids hcov
      have hne : id ≠ "" := hids id (List.mem_cons_self id rest)
      cases hlk : alookup st id with
      | some hd =>
          have hend := @tsEndActivity_found env id policy st hd hsup hne hlk
          simp only [endAllLoop, hend]
          refine ih err (aremove st id) (fun j hj => hids j (List.mem_cons_of_mem id hj)) ?_
          intro p hp
          obtain ⟨hpl, hpne⟩ := (mem_aremove_iff st id p).mp hp
          rcases List.mem_cons.mp (hcov p hpl) with hc | hc
          · exact absurd hc hpne
          · exact hc
      | none =>
          have hend := @tsEndActivity_absent env id policy st hsup hne hlk
          simp only [endAllLoop, hend]
          refine ih _ st (fun j hj => hids j (List.mem_cons_of_mem id hj)) ?_
          intro p hp
          rcases List.mem_cons.mp (hcov p hp) with hc | hc
          · exact absurd hc ((alookup_eq_none_iff st id).mp hlk p hp)
          · exact hc

end Lemmas

section Claims

/-- Claim C1: after a successful `startActivity`, the returned
`activityId` is in `getAllActivities()`; `endActivity` on that id then
succeeds for every dismissal policy and removes the entry immediately and
unconditionally (the host teardown is only launched in a detached task),
after which the id is no longer reported — the registry holds exactly the
live instances. -/
theorem start_registers_and_end_unregisters
    (env : Env) (ty : JSStringArg) (attrs content : Option JDict)
    (freshId : String) (now : Int) (st st' : ModuleState) (r : ActivityInfo)
    (hfresh : freshId ≠ "")
    (hok : tsStartActivity env ty attrs content freshId now st = (.ok r, st')) :
    r.activityId ∈ tsGetAllActivities env st' ∧
    ∀ policy : String, ∃ st'' : ModuleState,
      tsEndActivity env (.ofString r.activityId) policy st' = (.ok (), st'') ∧
      r.activityId ∉ tsGetAllActivities env st'' := by
  obtain ⟨hsup, hr, hd, hdne, hst'⟩ := tsStartActivity_ok hok
  subst hr
  have h161 := ios161_of_isSupported hsup
  have hga : ∀ s : ModuleState, tsGetAllActivities env s = s.map Prod.fst := by
    intro s
    simp [tsGetAllActivities, hsup, nativeGetAllActivities, h161]
  constructor
  · rw [hga, hst']
    exact List.mem_map_of_mem Prod.fst
      ((mem_ainsert_iff st r.activityId hd _).mpr (Or.inl rfl))
  · intro policy
    have hlk : alookup st' r.activityId = some hd := by
      rw [hst']
      exact alookup_ainsert_self st r.activityId hd
    refine ⟨aremove st' r.activityId,
      tsEndActivity_found hsup hfresh hlk, ?_⟩
    rw [hga]
    exact not_mem_keys_of_alookup_eq_none _ _
      (alookup_aremove_self st' r.activityId)

/-- Witness for C1 at a concrete run: start a Counter activity on a fully
capable host with fresh id `"B"`, then end it with the `"immediate"`
policy. -/
theorem start_registers_and_end_unregisters_witness :
    ("B" : String) ∈ tsGetAllActivities envAll
        [("B", StoredValue.counter ⟨"T", none⟩ ⟨10, none⟩)] ∧
    (∃ st'' : ModuleState,
      tsEndActivity envAll (.ofString "B") "immediate"
          [("B", StoredValue.counter ⟨"T", none⟩ ⟨10, none⟩)] = (.ok (), st'') ∧
      ("B" : String) ∉ tsGetAllActivities envAll st'') :=
  ⟨(start_registers_and_end_unregisters envAll (.ofString "CounterActivity")
      (some [("title", JValue.vstr "T")]) (some [("value", JValue.vint 10)])
      "B" 0 [] [("B", StoredValue.counter ⟨"T", none⟩ ⟨10, none⟩)]
      ⟨"B", "CounterActivity", 0⟩ (by decide) rfl).1,
   (start_registers_and_end_unregisters envAll (.ofString "CounterActivity")
      (some [("title", JValue.vstr "T")]) (some [("value", JValue.vint 10)])
      "B" 0 [] [("B", StoredValue.counter ⟨"T", none⟩ ⟨10, none⟩)]
      ⟨"B", "CounterActivity", 0⟩ (by decide) rfl).2 "immediate"⟩

/-- Claim C5: `startActivity` fails with the unsupported-device error
whenever `isSupported()` is false, and fails with the invalid-argument
error whenever (supportability permitting) the kind is an empty string or
not a string; both failures happen before any native call, leaving the
registry unchanged. -/
theorem start_validation_gates
    (env : Env) (ty : JSStringArg) (attrs content : Option JDict)
    (freshId : String) (now : Int) (st : ModuleState) :
    (isSupported env = false →
      tsStartActivity env ty attrs content freshId now st
        = (.error .unsupportedDevice, st)) ∧
    (isSupported env = true → validNonEmptyString ty = false →
      tsStartActivity env ty attrs content freshId now st
        = (.error (.invalidArgument "activityType must be a non-empty string"),
            st)) := by
  constructor
  · intro h
    simp [tsStartActivity, h]
  · intro hsup hv
    simp [tsStartActivity, hsup, hv]

/-- Witness for C5: an unsupported host rejects a well-formed start, and a
fully capable host rejects an empty kind, both without touching the
registry. -/
theorem start_validation_gates_witness :
    tsStartActivity envOff (.ofString "CounterActivity") (some []) (some [])
        "A" 0 [] = (.error .unsupportedDevice, []) ∧
    tsStartActivity envAll (.ofString "") (some []) (some []) "A" 0 []
      = (.error (.invalidArgument "activityType must be a non-empty string"),
          []) :=
  ⟨(start_validation_gates envOff (.ofString "CounterActivity") (some [])
      (some []) "A" 0 []).1 rfl,
   (start_validation_gates envAll (.ofString "") (some []) (some [])
      "A" 0 []).2 rfl rfl⟩

/-- Claim C6: on a host below iOS 16.2, requesting the `"after"` dismissal
policy does not raise: `parseDismissalPolicy` silently downgrades it to
`.default` (modelled as `.dflt`), and `endActivity` behaves exactly as if
`"default"` had been requested. -/
theorem after_policy_downgrade (env : Env) (h162 : env.ios162 = false) :
    parseDismissalPolicy env "after" = .dflt ∧
    ∀ (activityId : JSStringArg) (st : ModuleState),
      tsEndActivity env activityId "after" st
        = tsEndActivity env activityId "default" st := by
  have hA : parseDismissalPolicy env "after" = .dflt := by
    have hpa : parseDismissalPolicy env "after"
        = (if env.ios162 then ActivityUIDismissalPolicy.after 3 else .dflt) :=
      rfl
    rw [hpa, h162]
    rfl
  have hB : parseDismissalPolicy env "default" = .dflt := rfl
  have hnat : ∀ (id : String) (st : ModuleState),
      nativeEndActivity env id "after" st = nativeEndActivity env id "default" st := by
    intro id st
    unfold nativeEndActivity
    rw [hA, hB]
  constructor
  · exact hA
  · intro activityId st
    simp only [tsEndActivity, hnat]

/-- Witness for C6 on a concrete 16.1-only host, id `"A"`, empty
registry. -/
theorem after_policy_downgrade_witness :
    parseDismissalPolicy envNo162 "after" = .dflt ∧
    tsEndActivity envNo162 (.ofString "A") "after" []
      = tsEndActivity envNo162 (.ofString "A") "default" [] :=
  ⟨(after_policy_downgrade envNo162 rfl).1,
   (after_policy_downgrade envNo162 rfl).2 (.ofString "A") []⟩

/-- Claim C2 (counterexample): the catalog registers the kind under the
name `"CounterActivity"`, not `"Counter"`; a start with kind `"Counter"`
hits the unknown-kind branch, not the missing-`title` attribute check. -/
theorem short_kind_names_counterexample :
    (tsStartActivity envAll (.ofString "Counter") (some [])
        (some [("value", JValue.vint 1)]) "A" 0 []).1
      = .error (.wrapped (.startFailed
          ((LiveActivityError.unknownType "Counter").errorDescription))) ∧
    (tsStartActivity envAll (.ofString "Counter") (some [])
        (some [("value", JValue.vint 1)]) "A" 0 []).1
      ≠ .error (.wrapped (.startFailed
          ((LiveActivityError.invalidAttributes
            "Missing \x27title\x27 for CounterActivity").errorDescription))) := by
  constructor
  · rfl
  · decide

/-- Claim C2 (amended): with the registered kind names, a Counter start
with empty attributes and content `{value: 1}` fails with the
invalid-attributes error naming the missing `title`, and a Status start
with attributes `{identifier:"X", title:"Y"}` and empty content fails with
the invalid-content error naming the missing `status`, on every supported
host and without touching the registry. -/
theorem missing_required_field_errors
    (env : Env) (freshId : String) (now : Int) (st : ModuleState)
    (hsup : isSupported env = true) :
    tsStartActivity env (.ofString "CounterActivity") (some [])
        (some [("value", JValue.vint 1)]) freshId now st
      = (.error (.wrapped (.startFailed
          ((LiveActivityError.invalidAttributes
            "Missing \x27title\x27 for CounterActivity").errorDescription))), st) ∧
    tsStartActivity env (.ofString "StatusActivity")
        (some [("identifier", JValue.vstr "X"), ("title", JValue.vstr "Y")])
        (some []) freshId now st
      = (.error (.wrapped (.startFailed
          ((LiveActivityError.invalidContent
            "Missing \x27status\x27 for StatusActivity").errorDescription))), st) := by
  obtain ⟨pi, ma, i1, i2⟩ := env
  cases pi
  · exact absurd hsup (by simp [isSupported, nativeIsSupported])
  · cases ma
    · exact absurd hsup (by simp [isSupported, nativeIsSupported])
    · cases i1
      · exact absurd hsup (by simp [isSupported, nativeIsSupported])
      · exact ⟨rfl, rfl⟩

/-- Witness for the amended C2 on a fully capable host with an empty
registry. -/
theorem missing_required_field_errors_witness :
    tsStartActivity envAll (.ofString "CounterActivity") (some [])
        (some [("value", JValue.vint 1)]) "A" 0 []
      = (.error (.wrapped (.startFailed
          ((LiveActivityError.invalidAttributes
            "Missing \x27title\x27 for CounterActivity").errorDescription))), []) ∧
    tsStartActivity envAll (.ofString "StatusActivity")
        (some [("identifier", JValue.vstr "X"), ("title", JValue.vstr "Y")])
        (some []) "A" 0 []
      = (.error (.wrapped (.startFailed
          ((LiveActivityError.invalidContent
            "Missing \x27status\x27 for StatusActivity").errorDescription))), []) :=
  missing_required_field_errors envAll "A" 0 [] rfl

/-- Claim C3 (counterexample): the empty string is a kind outside the
registered catalog, yet `startActivity("", {}, {})` on a supported host is
rejected by the non-empty-string validation of the facade, not with the
unknown-kind error. -/
theorem unknown_kind_empty_string_counterexample :
    ("" : String) ∉ ["CounterActivity", "StatusActivity", "ProgressActivity"] ∧
    (tsStartActivity envAll (.ofString "") (some []) (some []) "A" 0 []).1
      = .error (.invalidArgument "activityType must be a non-empty string") ∧
    (tsStartActivity envAll (.ofString "") (some []) (some []) "A" 0 []).1
      ≠ .error (.wrapped (.startFailed
          ((LiveActivityError.unknownType "").errorDescription))) := by
  refine ⟨by decide, rfl, by decide⟩

/-- Claim C3 (amended): for every non-empty kind string outside the
registered catalog (`CounterActivity`, `StatusActivity`,
`ProgressActivity`), `startActivity` on a supported host fails with the
unknown-kind error and inserts nothing into the registry. -/
theorem unknown_kind_rejected
    (env : Env) (ty : String) (attrs content : Option JDict)
    (freshId : String) (now : Int) (st : ModuleState)
    (hsup : isSupported env = true) (hne : ty ≠ "")
    (hcat : ty ∉ ["CounterActivity", "StatusActivity", "ProgressActivity"]) :
    tsStartActivity env (.ofString ty) attrs content freshId now st
      = (.error (.wrapped (.startFailed
          ((LiveActivityError.unknownType ty).errorDescription))), st) := by
  simp only [List.mem_cons, List.not_mem_nil, or_false, not_or] at hcat
  obtain ⟨hc1, hc2, hc3⟩ := hcat
  have h161 := ios161_of_isSupported hsup
  have hva : validNonEmptyString (.ofString ty) = true := by
    simp [validNonEmptyString, hne]
  have hcr : createActivity freshId ty (attrs.getD []) (content.getD []) st
      = (.error (.unknownType ty), st) := by
    unfold createActivity
    split
    · exact absurd rfl hc1
    · exact absurd rfl hc2
    · exact absurd rfl hc3
    · rfl
  have hns : nativeStartActivity env ty (attrs.getD []) (content.getD [])
      freshId now st
      = (.error (.startFailed ((LiveActivityError.unknownType ty).errorDescription)),
          st) := by
    simp [nativeStartActivity, h161, hcr]
  simp [tsStartActivity, hsup, hva, hns]

/-- Witness for the amended C3: the example kind given by the spec itself,
`"DoesNotExist"` on a fully capable host. -/
theorem unknown_kind_rejected_witness :
    tsStartActivity envAll (.ofString "DoesNotExist") (some []) (some [])
        "A" 0 []
      = (.error (.wrapped (.startFailed
          ((LiveActivityError.unknownType "DoesNotExist").errorDescription))),
          []) :=
  unknown_kind_rejected envAll "DoesNotExist" (some []) (some []) "A" 0 []
    rfl (by decide) (by decide)

/-- Claim C4 (counterexample): the empty string names no live instance,
yet `updateActivity("", ...)` on a supported host is rejected by the
non-empty-string validation of the facade, not with the not-found error. -/
theorem update_empty_id_counterexample :
    tsUpdateActivity envAll (.ofString "") (some []) []
      = (.error (.invalidArgument "activityId must be a non-empty string"),
          []) ∧
    (tsUpdateActivity envAll (.ofString "") (some []) []).1
      ≠ .error (.wrapped (.updateFailed
          ((LiveActivityError.notFound "").errorDescription))) := by
  refine ⟨rfl, by decide⟩

/-- Claim C4 (amended): for every non-empty `activityId` not reported by
`getAllActivities()` and every content payload (including a nullish one),
`updateActivity` on a supported host fails with the not-found error — the
lookup precedes any content parsing, so the payload never changes the
outcome — and the registry is unchanged. -/
theorem update_unknown_id_notfound
    (env : Env) (id : String) (content : Option JDict) (st : ModuleState)
    (hsup : isSupported env = true) (hne : id ≠ "")
    (habsent : id ∉ tsGetAllActivities env st) :
    tsUpdateActivity env (.ofString id) content st
      = (.error (.wrapped (.updateFailed
          ((LiveActivityError.notFound id).errorDescription))), st) := by
  have h161 := ios161_of_isSupported hsup
  have hga : tsGetAllActivities env st = st.map Prod.fst := by
    simp [tsGetAllActivities, hsup, nativeGetAllActivities, h161]
  rw [hga] at habsent
  have hlk : alookup st id = none :=
    alookup_eq_none_of_not_mem_keys st id habsent
  have hue : updateExistingActivity id (content.getD []) st
      = (.error (.notFound id), st) := updateExistingActivity_notFound hlk
  have hnu : nativeUpdateActivity env id (content.getD []) st
      = (.error (.updateFailed ((LiveActivityError.notFound id).errorDescription)),
          st) := by
    simp [nativeUpdateActivity, h161, hue]
  have hvv : validNonEmptyString (.ofString id) = true := by
    simp [validNonEmptyString, hne]
  simp [tsUpdateActivity, hsup, hvv, hnu]

/-- Witness for the amended C4: id `"Z"` against a registry holding only
`"A"`, with a payload that would not even parse. -/
theorem update_unknown_id_notfound_witness :
    tsUpdateActivity envAll (.ofString "Z") (some [("junk", JValue.vother)])
        [("A", StoredValue.counter ⟨"T", none⟩ ⟨10, none⟩)]
      = (.error (.wrapped (.updateFailed
          ((LiveActivityError.notFound "Z").errorDescription))),
          [("A", StoredValue.counter ⟨"T", none⟩ ⟨10, none⟩)]) :=
  update_unknown_id_notfound envAll "Z" (some [("junk", JValue.vother)])
    [("A", StoredValue.counter ⟨"T", none⟩ ⟨10, none⟩)] rfl (by decide)
    (by decide)

/-- Claim C7: `endAllActivities` is a silent no-op when unsupported; on a
supported host (ids are UUIDs, hence non-empty) it ends every id in the
registry sequentially-atomically, so the registry — and hence a subsequent
`getAllActivities()` — is empty afterwards, with no per-id failure ever
restoring an already-removed entry. -/
theorem endAll_noop_or_empties
    (env : Env) (policy : String) (st : ModuleState)
    (hkeys : ∀ p ∈ st, p.1 ≠ "") :
    (isSupported env = false → tsEndAllActivities env policy st = (none, st)) ∧
    (isSupported env = true →
      (tsEndAllActivities env policy st).2 = [] ∧
      tsGetAllActivities env (tsEndAllActivities env policy st).2 = []) := by
  constructor
  · intro h
    simp [tsEndAllActivities, h]
  · intro hsup
    have h161 := ios161_of_isSupported hsup
    have hga : tsGetAllActivities env st = st.map Prod.fst := by
      simp [tsGetAllActivities, hsup, nativeGetAllActivities, h161]
    have hids : ∀ j ∈ st.map Prod.fst, j ≠ "" := by
      intro j hj
      obtain ⟨p, hp, hpj⟩ := List.mem_map.mp hj
      exact hpj ▸ hkeys p hp
    have hcov : ∀ p ∈ st, p.1 ∈ st.map Prod.fst := fun p hp =>
      List.mem_map_of_mem Prod.fst hp
    have hloop := endAllLoop_empties env policy hsup (st.map Prod.fst)
      none st hids hcov
    have hmain : (tsEndAllActivities env policy st).2 = [] := by
      simp [tsEndAllActivities, hsup, hga, hloop]
    refine ⟨hmain, ?_⟩
    rw [hmain]
    simp [tsGetAllActivities, nativeGetAllActivities]

/-- Witness for C7: the unsupported host leaves a one-entry registry
untouched without error, and the fully capable host empties it. -/
theorem endAll_noop_or_empties_witness :
    tsEndAllActivities envOff "default"
        [("A", StoredValue.counter ⟨"T", none⟩ ⟨1, none⟩)]
      = (none, [("A", StoredValue.counter ⟨"T", none⟩ ⟨1, none⟩)]) ∧
    ((tsEndAllActivities envAll "default"
        [("A", StoredValue.counter ⟨"T", none⟩ ⟨1, none⟩)]).2 = [] ∧
      tsGetAllActivities envAll
        (tsEndAllActivities envAll "default"
          [("A", StoredValue.counter ⟨"T", none⟩ ⟨1, none⟩)]).2 = []) :=
  ⟨(endAll_noop_or_empties envOff "default"
      [("A", StoredValue.counter ⟨"T", none⟩ ⟨1, none⟩)] (by decide)).1 rfl,
   (endAll_noop_or_empties envAll "default"
      [("A", StoredValue.counter ⟨"T", none⟩ ⟨1, none⟩)] (by decide)).2 rfl⟩

/-- Claim C8: updating a live activity with a content record that parses
for the kind of the instance succeeds without resupplying any attribute field,
replaces only the content snapshot (attributes of every entry are
untouched), and changes no registry structure: the key set is unchanged. -/
theorem update_replaces_content_only
    (env : Env) (id : String) (st : ModuleState) (hd : StoredValue)
    (c : JDict) (hsup : isSupported env = true) (hne : id ≠ "")
    (hlk : alookup st id = some hd) (hc : contentParsesFor hd c) :
    ∃ st', tsUpdateActivity env (.ofString id) (some c) st = (.ok (), st') ∧
      (∀ j, j ∈ st'.map Prod.fst ↔ j ∈ st.map Prod.fst) ∧
      (∀ j hj, alookup st j = some hj →
        ∃ hj', alookup st' j = some hj' ∧ attrsAgree hj hj') := by
  have h161 := ios161_of_isSupported hsup
  have hvv : validNonEmptyString (.ofString id) = true := by
    simp [validNonEmptyString, hne]
  have hidmem : id ∈ st.map Prod.fst := mem_keys_of_alookup st id hd hlk
  obtain ⟨hdN, hue, hagree⟩ :
      ∃ hdN, updateExistingActivity id c st = (.ok (), ainsert st id hdN) ∧
        attrsAgree hd hdN := by
    cases hd with
    | counter a c0 =>
        obtain ⟨x, hx⟩ := hc
        refine ⟨.counter a x, ?_, by simp [attrsAgree]⟩
        unfold updateExistingActivity
        rw [hlk, hx]
    | status a c0 =>
        obtain ⟨x, hx⟩ := hc
        refine ⟨.status a x, ?_, by simp [attrsAgree]⟩
        unfold updateExistingActivity
        rw [hlk, hx]
    | progress a c0 =>
        obtain ⟨x, hx⟩ := hc
        refine ⟨.progress a x, ?_, by simp [attrsAgree]⟩
        unfold updateExistingActivity
        rw [hlk, hx]
    | other => exact absurd hc (by simp [contentParsesFor])
  have hnu : nativeUpdateActivity env id c st = (.ok (), ainsert st id hdN) := by
    simp [nativeUpdateActivity, h161, hue]
  have hts : tsUpdateActivity env (.ofString id) (some c) st
      = (.ok (), ainsert st id hdN) := by
    simp [tsUpdateActivity, hsup, hvv, hnu]
  refine ⟨ainsert st id hdN, hts, keys_ainsert_iff st id hdN hidmem, ?_⟩
  intro j hj hjlk
  by_cases hji : j = id
  · subst hji
    rw [hlk] at hjlk
    injection hjlk with hjeq
    subst hjeq
    exact ⟨hdN, alookup_ainsert_self st j hdN, hagree⟩
  · refine ⟨hj, ?_, attrsAgree_rfl hj⟩
    rw [alookup_ainsert_ne st id j hdN hji]
    exact hjlk

/-- Witness for C8: the round-trip from the spec — a Counter started with
`{title:"T"}` / `{value:10}`, updated with `{value:5, status:"s"}` and no
`title`. -/
theorem update_replaces_content_only_witness :
    ∃ st', tsUpdateActivity envAll (.ofString "A")
        (some [("value", JValue.vint 5), ("status", JValue.vstr "s")])
        [("A", StoredValue.counter ⟨"T", none⟩ ⟨10, none⟩)] = (.ok (), st') ∧
      (∀ j, j ∈ st'.map Prod.fst ↔
        j ∈ [("A", StoredValue.counter ⟨"T", none⟩ ⟨10, none⟩)].map Prod.fst) ∧
      (∀ j hj,
        alookup [("A", StoredValue.counter ⟨"T", none⟩ ⟨10, none⟩)] j = some hj →
        ∃ hj', alookup st' j = some hj' ∧ attrsAgree hj hj') :=
  update_replaces_content_only envAll "A"
    [("A", StoredValue.counter ⟨"T", none⟩ ⟨10, none⟩)]
    (.counter ⟨"T", none⟩ ⟨10, none⟩)
    [("value", JValue.vint 5), ("status", JValue.vstr "s")]
    rfl (by decide) rfl ⟨⟨5, some "s"⟩, rfl⟩

/-- Claim C9: in every reachable registry, every stored handle has one of
the three registered kinds (never an unrelated `Any`), so the unknown-type branch of the update
dispatch can never fire for a registered id, and a
successful update resolves to — and keeps — the kind fixed at creation. -/
theorem registry_kind_stable
    (st : ModuleState) (hr : Reachable st) (id : String) (hd : StoredValue)
    (hlk : alookup st id = some hd) :
    hd ≠ StoredValue.other ∧
    (∀ c : JDict, (updateExistingActivity id c st).1
      ≠ .error (.unknownType ("Unknown activity type for ID: " ++ id))) ∧
    (∀ (c : JDict) (st2 : ModuleState),
      updateExistingActivity id c st = (.ok (), st2) →
      ∃ hd', alookup st2 id = some hd' ∧ attrsAgree hd hd') := by
  have hno : hd ≠ StoredValue.other :=
    reachable_no_other hr (id, hd) (mem_of_alookup_eq_some st id hd hlk)
  refine ⟨hno, ?_, ?_⟩
  · intro c
    cases hd with
    | other => exact absurd rfl hno
    | counter a c0 =>
        unfold updateExistingActivity
        rw [hlk]
        cases hx : getInt c "value" <;> simp [parseCounterContent, hx]
    | status a c0 =>
        unfold updateExistingActivity
        rw [hlk]
        cases hx : getString c "status" <;> simp [parseStatusContent, hx]
    | progress a c0 =>
        unfold updateExistingActivity
        rw [hlk]
        cases hx : getInt c "current" <;> simp [parseProgressContent, hx]
  · intro c st2 hup
    unfold updateExistingActivity at hup
    rw [hlk] at hup
    cases hd with
    | other => exact absurd rfl hno
    | counter a c0 =>
        cases hx : parseCounterContent c with
        | error e =>
            rw [hx] at hup
            simp at hup
        | ok x =>
            rw [hx] at hup
            have h2 : ainsert st id (StoredValue.counter a x) = st2 :=
              congrArg Prod.snd hup
            exact ⟨.counter a x, h2 ▸ alookup_ainsert_self st id _,
              by simp [attrsAgree]⟩
    | status a c0 =>
        cases hx : parseStatusContent c with
        | error e =>
            rw [hx] at hup
            simp at hup
        | ok x =>
            rw [hx] at hup
            have h2 : ainsert st id (StoredValue.status a x) = st2 :=
              congrArg Prod.snd hup
            exact ⟨.status a x, h2 ▸ alookup_ainsert_self st id _,
              by simp [attrsAgree]⟩
    | progress a c0 =>
        cases hx : parseProgressContent c with
        | error e =>
            rw [hx] at hup
            simp at hup
        | ok x =>
            rw [hx] at hup
            have h2 : ainsert st id (StoredValue.progress a x) = st2 :=
              congrArg Prod.snd hup
            exact ⟨.progress a x, h2 ▸ alookup_ainsert_self st id _,
              by simp [attrsAgree]⟩

/-- Witness for C9 at the reachable one-entry registry created by a
successful Counter start. -/
theorem registry_kind_stable_witness :
    (StoredValue.counter ⟨"T", none⟩ ⟨10, none⟩ ≠ StoredValue.other) ∧
    ((updateExistingActivity "A" []
        [("A", StoredValue.counter ⟨"T", none⟩ ⟨10, none⟩)]).1
      ≠ .error (.unknownType ("Unknown activity type for ID: " ++ "A"))) :=
  ⟨(registry_kind_stable [("A", StoredValue.counter ⟨"T", none⟩ ⟨10, none⟩)]
      (Reachable.step_start envAll "CounterActivity"
        [("title", JValue.vstr "T")] [("value", JValue.vint 10)] "A" 0 []
        ⟨"A", "CounterActivity", 0⟩
        [("A", StoredValue.counter ⟨"T", none⟩ ⟨10, none⟩)]
        Reachable.init (by decide) rfl rfl)
      "A" (StoredValue.counter ⟨"T", none⟩ ⟨10, none⟩) rfl).1,
   (registry_kind_stable [("A", StoredValue.counter ⟨"T", none⟩ ⟨10, none⟩)]
      (Reachable.step_start envAll "CounterActivity"
        [("title", JValue.vstr "T")] [("value", JValue.vint 10)] "A" 0 []
        ⟨"A", "CounterActivity", 0⟩
        [("A", StoredValue.counter ⟨"T", none⟩ ⟨10, none⟩)]
        Reachable.init (by decide) rfl rfl)
      "A" (StoredValue.counter ⟨"T", none⟩ ⟨10, none⟩) rfl).2.1 []⟩

/-- Claim C10: a nullish `attributes`/`contentState` is replaced by the
empty record before delegation (`x || {}`), so such calls reach the bridge
and fail only with the field validation of the bridge itself: a Counter start with
nullish records fails with the invalid-attributes error naming `title`,
and a nullish update of a live Counter fails with the invalid-content
error naming `value`, the registry unchanged. -/
theorem nullish_records_substituted
    (env : Env) (freshId : String) (now : Int) (st : ModuleState)
    (id : String) (a : CounterActivityAttributes) (c0 : CounterContentState)
    (hsup : isSupported env = true) (hne : id ≠ "")
    (hlk : alookup st id = some (.counter a c0)) :
    tsStartActivity env (.ofString "CounterActivity") none none freshId now st
      = tsStartActivity env (.ofString "CounterActivity") (some []) (some [])
          freshId now st ∧
    (tsStartActivity env (.ofString "CounterActivity") none none
        freshId now st).1
      = .error (.wrapped (.startFailed
          ((LiveActivityError.invalidAttributes
            "Missing \x27title\x27 for CounterActivity").errorDescription))) ∧
    tsUpdateActivity env (.ofString id) none st
      = tsUpdateActivity env (.ofString id) (some []) st ∧
    tsUpdateActivity env (.ofString id) none st
      = (.error (.wrapped (.updateFailed
          ((LiveActivityError.invalidContent
            "Missing \x27value\x27 for CounterActivity").errorDescription))),
          st) := by
  obtain ⟨pi, ma, i1, i2⟩ := env
  cases pi
  · exact absurd hsup (by simp [isSupported, nativeIsSupported])
  · cases ma
    · exact absurd hsup (by simp [isSupported, nativeIsSupported])
    · cases i1
      · exact absurd hsup (by simp [isSupported, nativeIsSupported])
      · refine ⟨rfl, rfl, rfl, ?_⟩
        have hue : updateExistingActivity id [] st
            = (.error (.invalidContent "Missing \x27value\x27 for CounterActivity"),
                st) := by
          unfold updateExistingActivity
          rw [hlk]
          rfl
        have hnu : nativeUpdateActivity ⟨true, true, true, i2⟩ id [] st
            = (.error (.updateFailed
                ((LiveActivityError.invalidContent
                  "Missing \x27value\x27 for CounterActivity").errorDescription)),
                st) := by
          simp [nativeUpdateActivity, hue]
        have hvv : validNonEmptyString (.ofString id) = true := by
          simp [validNonEmptyString, hne]
        simp [tsUpdateActivity, hvv, hnu, isSupported, nativeIsSupported]

/-- Witness for C10 on a fully capable host with a live Counter under
`"A"`. -/
theorem nullish_records_substituted_witness :
    tsStartActivity envAll (.ofString "CounterActivity") none none "B" 0
        [("A", StoredValue.counter ⟨"T", none⟩ ⟨10, none⟩)]
      = tsStartActivity envAll (.ofString "CounterActivity") (some [])
          (some []) "B" 0
          [("A", StoredValue.counter ⟨"T", none⟩ ⟨10, none⟩)] ∧
    (tsStartActivity envAll (.ofString "CounterActivity") none none "B" 0
        [("A", StoredValue.counter ⟨"T", none⟩ ⟨10, none⟩)]).1
      = .error (.wrapped (.startFailed
          ((LiveActivityError.invalidAttributes
            "Missing \x27title\x27 for CounterActivity").errorDescription))) ∧
    tsUpdateActivity envAll (.ofString "A") none
        [("A", StoredValue.counter ⟨"T", none⟩ ⟨10, none⟩)]
      = tsUpdateActivity envAll (.ofString "A") (some [])
          [("A", StoredValue.counter ⟨"T", none⟩ ⟨10, none⟩)] ∧
    tsUpdateActivity envAll (.ofString "A") none
        [("A", StoredValue.counter ⟨"T", none⟩ ⟨10, none⟩)]
      = (.error (.wrapped (.updateFailed
          ((LiveActivityError.invalidContent
            "Missing \x27value\x27 for CounterActivity").errorDescription))),
          [("A", StoredValue.counter ⟨"T", none⟩ ⟨10, none⟩)]) :=
  nullish_records_substituted envAll "B" 0
    [("A", StoredValue.counter ⟨"T", none⟩ ⟨10, none⟩)] "A"
    ⟨"T", none⟩ ⟨10, none⟩ rfl (by decide) rfl

end Claims

end ActivityKitModel
